import Mathlib

/-!
# Verification of the biogas production predictor app

A shallow embedding of `src/app.py` (a Gradio front-end for a pretrained
LightGBM regressor) and proofs about its two public operations:

* `predict_biogas` — the single-scenario predictor (18 slider inputs,
  derived metrics, optional SHAP attribution, src/app.py lines 51-186);
* `batch_predict` — the CSV batch predictor (schema validation, per-row
  prediction loop, numpy aggregate statistics, src/app.py lines 192-243).

Python floats are modelled as rationals (`ℚ`); the opaque LightGBM model and
the SHAP explainer are parameters of the embedding (functions that may fail,
mirroring the try/except wrappers in the code).  A pandas data frame is a
list of column names plus a list of rows, each row being a valuation of
column names.
-/

namespace BiogasApp

/-- The 18 feature names in the order of the `input_data` dictionary
(src/app.py lines 67-86); the same order is used by the fallback
`defaults` dictionary (lines 254-273) and by the loaded `feature_names`
list that the data frame is reindexed by (line 89). -/
def feature_names : List String :=
  ["Pig Manure (kg)", "Kitchen Food Waste (kg)", "Chicken Litter (kg)",
   "Cassava (kg)", "Bagasse Feed (kg)", "Energy Grass (kg)",
   "Banana Shafts (kg)", "Alcohol Waste (kg)", "Municipal Residue (kg)",
   "Fish Waste (kg)", "Water (L)", "Diesel (L)", "Electricity Use (kWh)",
   "C/N Ratio", "Digester Temp (C)", "Temperature (C)", "Humidity (%)",
   "Rainfall (mm)"]

/-- The opaque regressor: `model.predict` applied to a single row of feature
values (in `feature_names` order) yields one scalar, or raises — a raise is
modelled as `Except.error` with the exception text. -/
abbrev Predictor := List ℚ → Except String ℚ

/-- The opaque SHAP explainer: `explainer.shap_values` applied to a single
row yields one contribution per feature, or raises. -/
abbrev Explainer := List ℚ → Except String (List ℚ)

/-- The numeric content of the single-prediction result text
(src/app.py lines 92-109): the point estimate and its derived metrics.
`vs_average_pct` is the percentage computed inline in the f-string on
line 109. -/
structure PredictionResult where
  prediction : ℚ
  daily_energy : ℚ
  annual_production : ℚ
  vs_average : ℚ
  vs_average_pct : ℚ
deriving DecidableEq

/-- Derived metrics exactly as computed on src/app.py lines 95-97 and 109. -/
def make_result (prediction : ℚ) : PredictionResult :=
  { prediction := prediction
    daily_energy := prediction * 6.5
    annual_production := prediction * 365 / 1000
    vs_average := prediction - 79.21
    vs_average_pct := (prediction - 79.21) / 79.21 * 100 }

/-- The comparison used by `sorted(shap_dict.items(), key=lambda x: abs(x[1]),
reverse=True)` on src/app.py line 133: descending absolute contribution.
Python's `sorted` is stable and `reverse=True` does not reorder equal keys,
which matches Mathlib's stable `insertionSort` under this relation. -/
def shap_desc (a b : String × ℚ) : Prop := |b.2| ≤ |a.2|

instance : DecidableRel shap_desc :=
  fun a b => inferInstanceAs (Decidable (|b.2| ≤ |a.2|))

instance : IsTotal (String × ℚ) shap_desc :=
  ⟨fun a b => le_total (|b.2|) (|a.2|)⟩

instance : IsTrans (String × ℚ) shap_desc :=
  ⟨fun _ _ _ h1 h2 => le_trans h2 h1⟩

/-- `sorted(shap_dict.items(), key=lambda x: abs(x[1]), reverse=True)[:10]`
(src/app.py line 133): stable sort by descending absolute value, then the
first ten entries. -/
def top_shap (shap_list : List (String × ℚ)) : List (String × ℚ) :=
  (List.insertionSort shap_desc shap_list).take 10

/-- The single-prediction outcome: the Python function returns a triple
`(text, fig, fig2)`; `failure msg` stands for `(msg, None, None)` and
`success res att` stands for the result text built from `res` together with
the two charts built from `att` (both `None` when `att` is `none`). -/
inductive PredictOutput where
  | failure (message : String)
  | success (result : PredictionResult) (attribution : Option (List (String × ℚ)))

/-- The row of input values in `feature_names` order: the `input_data`
dictionary (src/app.py lines 67-86) reindexed by `feature_names` (line 89);
the dictionary is built in exactly that order, so the reindexing is the
identity on this model. -/
def input_row (pig_manure kitchen_waste chicken_litter cassava bagasse
    energy_grass banana_shafts alcohol_waste municipal_residue fish_waste
    water diesel electricity cn_ratio digester_temp
    ambient_temp humidity rainfall : ℚ) : List ℚ :=
  [pig_manure, kitchen_waste, chicken_litter, cassava, bagasse,
   energy_grass, banana_shafts, alcohol_waste, municipal_residue, fish_waste,
   water, diesel, electricity, cn_ratio, digester_temp,
   ambient_temp, humidity, rainfall]

/-- The body of `predict_biogas` (src/app.py lines 62-186) after the input
row has been assembled: check the registry, predict, derive metrics, then
attempt the SHAP explanation; an explainer failure is caught and degrades
the result to "prediction available, explanation unavailable"
(lines 179-181). -/
def predict_core (model : Option Predictor) (explainer : Option Explainer)
    (row : List ℚ) : PredictOutput :=
  match model with
  | none => PredictOutput.failure "❌ Model not loaded. Please check setup."
  | some m =>
    match m row with
    | Except.error e => PredictOutput.failure ("❌ Prediction error: " ++ e)
    | Except.ok prediction =>
      let result := make_result prediction
      match explainer with
      | none => PredictOutput.success result none
      | some ex =>
        match ex row with
        | Except.error _ => PredictOutput.success result none
        | Except.ok shap_values =>
          PredictOutput.success result
            (some (top_shap (feature_names.zip shap_values)))

/-- `predict_biogas` (src/app.py lines 51-186): the 18 widget inputs in the
Python parameter order. -/
def predict_biogas (model : Option Predictor) (explainer : Option Explainer)
    (pig_manure kitchen_waste chicken_litter cassava bagasse
     energy_grass banana_shafts alcohol_waste municipal_residue fish_waste
     water diesel electricity cn_ratio digester_temp
     ambient_temp humidity rainfall : ℚ) : PredictOutput :=
  predict_core model explainer
    (input_row pig_manure kitchen_waste chicken_litter cassava bagasse
      energy_grass banana_shafts alcohol_waste municipal_residue fish_waste
      water diesel electricity cn_ratio digester_temp
      ambient_temp humidity rainfall)

/-- A parsed CSV file as a pandas data frame: the column names and the rows,
each row a valuation of column names (columns outside `cols` are irrelevant
to the code). -/
structure CsvTable where
  cols : List String
  rows : List (String → ℚ)

/-- `set(feature_names) - set(df.columns)` (src/app.py line 206), kept in
`feature_names` order (a Python set is unordered; only its membership is
observable in the claims). -/
def missing_cols (cols : List String) : List String :=
  feature_names.filter (fun n => !(cols.contains n))

/-- `np.mean`: sum divided by length.  On an empty array numpy emits a
(suppressed) warning and yields NaN; in this rational model the division by
zero yields `0`, a value that never reaches any result because `np_min`
errors on the empty list first (see `batch_predict`). -/
def np_mean (l : List ℚ) : ℚ := l.sum / (l.length : ℚ)

/-- The square of `np.std` (population variance, ddof = 0).  `np.std` itself
is the real square root of this value, which is irrational in general; no
claim depends on the standard deviation's value. -/
def np_std_sq (l : List ℚ) : ℚ := np_mean (l.map (fun x => (x - np_mean l) ^ 2))

/-- `np.min` (src/app.py line 229): raises `ValueError` on a zero-size
array, which aborts the summary f-string on an empty batch. -/
def np_min : List ℚ → Except String ℚ
  | [] => Except.error
      "zero-size array to reduction operation minimum which has no identity"
  | x :: xs => Except.ok (xs.foldl min x)

/-- `np.max` (src/app.py line 230): raises `ValueError` on a zero-size
array. -/
def np_max : List ℚ → Except String ℚ
  | [] => Except.error
      "zero-size array to reduction operation maximum which has no identity"
  | x :: xs => Except.ok (xs.foldl max x)

/-- The numeric content of the batch summary markdown
(src/app.py lines 221-234). -/
structure BatchSummary where
  count : ℕ
  mean : ℚ
  std_sq : ℚ
  min : ℚ
  max : ℚ
  range : ℚ
deriving DecidableEq

/-- The batch outcome: the Python function returns `(text, file)`;
`failure msg` stands for `(msg, None)` and `success` carries the output
table (columns and unchanged input rows), the prediction column, the
summary statistics, and the name of the written CSV file. -/
inductive BatchOutput where
  | failure (message : String)
  | success (out_cols : List String) (rows : List (String → ℚ))
      (predictions : List ℚ) (summary : BatchSummary) (output_file : String)

/-- The prediction loop of `batch_predict` (src/app.py lines 211-215):
`row[feature_names]` per row in order; the first raising row aborts the
whole loop (the exception propagates to the enclosing try/except). -/
def run_predictions (m : Predictor) : List (String → ℚ) → Except String (List ℚ)
  | [] => Except.ok []
  | row :: rest =>
    match m (feature_names.map row) with
    | Except.error e => Except.error e
    | Except.ok p =>
      match run_predictions m rest with
      | Except.error e => Except.error e
      | Except.ok ps => Except.ok (p :: ps)

/-- `batch_predict` (src/app.py lines 192-243).  Registry check, file check,
schema validation, prediction loop, column assignment
(`df['Predicted_Biogas_m3'] = predictions` overwrites an existing column of
that name and appends a new one otherwise), then the summary statistics.
On an empty batch `np.min` raises, so the enclosing try/except turns the
whole call into an error message (`np.mean`'s empty-slice warning is
suppressed by the global warning filter on line 15 and does not raise). -/
def batch_predict (model : Option Predictor) (file : Option CsvTable) :
    BatchOutput :=
  match model with
  | none => BatchOutput.failure "❌ Model not loaded"
  | some m =>
    match file with
    | none => BatchOutput.failure "❌ Please upload a CSV file"
    | some df =>
      let missing := missing_cols df.cols
      if missing ≠ [] then
        BatchOutput.failure ("❌ Missing columns: " ++ toString missing)
      else
        match run_predictions m df.rows with
        | Except.error e =>
            BatchOutput.failure ("❌ Error processing file: " ++ e)
        | Except.ok predictions =>
          let out_cols :=
            if df.cols.contains "Predicted_Biogas_m3" then df.cols
            else df.cols ++ ["Predicted_Biogas_m3"]
          match np_min predictions, np_max predictions with
          | Except.ok mn, Except.ok mx =>
              BatchOutput.success out_cols df.rows predictions
                { count := df.rows.length
                  mean := np_mean predictions
                  std_sq := np_std_sq predictions
                  min := mn
                  max := mx
                  range := mx - mn }
                "biogas_predictions.csv"
          | Except.error e, _ =>
              BatchOutput.failure ("❌ Error processing file: " ++ e)
          | _, Except.error e =>
              BatchOutput.failure ("❌ Error processing file: " ++ e)

/-! ## Inversion helpers -/

/-- A successful single prediction pins the result to `make_result` of the
predictor's output. -/
theorem predict_core_success (m : Predictor) (ex : Option Explainer)
    (row : List ℚ) (res : PredictionResult)
    (att : Option (List (String × ℚ)))
    (h : predict_core (some m) ex row = PredictOutput.success res att) :
    ∃ q, m row = Except.ok q ∧ res = make_result q := by
  simp only [predict_core] at h
  cases hm : m row with
  | error e => simp only [hm] at h; exact absurd h (by simp)
  | ok q =>
    simp only [hm] at h
    refine ⟨q, rfl, ?_⟩
    cases ex with
    | none => cases h; rfl
    | some e2 =>
      cases he : e2 row with
      | error err => simp only [he] at h; cases h; rfl
      | ok sv => simp only [he] at h; cases h; rfl

/-- Filtering maps a prefix of a list to a prefix of the filtered list. -/
theorem prefix_filter {α : Type} (p : α → Bool) {l1 l2 : List α}
    (h : l1 <+: l2) : l1.filter p <+: l2.filter p := by
  obtain ⟨t, rfl⟩ := h
  exact ⟨t.filter p, (List.filter_append l1 t).symm⟩

/-- Stability of `orderedInsert` under `shap_desc`, inserted element at the
filtered level: the inserted element lands before every already-present
element of the same absolute value (every element it skips has strictly
larger absolute value). -/
theorem filter_orderedInsert_eq (c : ℚ) (a : String × ℚ) (ha : |a.2| = c)
    (l : List (String × ℚ)) :
    (List.orderedInsert shap_desc a l).filter (fun p => decide (|p.2| = c)) =
      a :: l.filter (fun p => decide (|p.2| = c)) := by
  induction l with
  | nil => simp [List.orderedInsert, ha]
  | cons b t ih =>
    by_cases hb : shap_desc a b
    · simp [List.orderedInsert, hb, ha]
    · have hbc : ¬ (|b.2| = c) := fun hbceq =>
        hb ((hbceq.trans ha.symm).le)
      simp [List.orderedInsert, hb, hbc, ih]

/-- Stability of `orderedInsert` under `shap_desc`, inserted element not at
the filtered level: the filter at that level is unchanged. -/
theorem filter_orderedInsert_ne (c : ℚ) (a : String × ℚ) (ha : ¬ |a.2| = c)
    (l : List (String × ℚ)) :
    (List.orderedInsert shap_desc a l).filter (fun p => decide (|p.2| = c)) =
      l.filter (fun p => decide (|p.2| = c)) := by
  induction l with
  | nil => simp [List.orderedInsert, ha]
  | cons b t ih =>
    by_cases hb : shap_desc a b
    · simp [List.orderedInsert, hb, ha]
    · simp [List.orderedInsert, hb, List.filter_cons, ih]

/-- Stability of the Python sort: at every absolute-value level the sorted
list lists exactly the original entries in their original order. -/
theorem filter_insertionSort_shap (c : ℚ) (l : List (String × ℚ)) :
    (List.insertionSort shap_desc l).filter (fun p => decide (|p.2| = c)) =
      l.filter (fun p => decide (|p.2| = c)) := by
  induction l with
  | nil => rfl
  | cons a t ih =>
    rw [List.insertionSort]
    by_cases ha : |a.2| = c
    · rw [filter_orderedInsert_eq c a ha _, ih, List.filter_cons,
        if_pos (by simp [ha])]
    · rw [filter_orderedInsert_ne c a ha _, ih, List.filter_cons,
        if_neg (by simp [ha])]

/-! ## Claims -/

/-- **C1**: for every point estimate returned by the predictor in a
successful single prediction (zero and negative values included), the
derived metrics are exactly the fixed linear transforms:
`daily_energy = prediction * 6.5`,
`annual_production = prediction * 365 / 1000`,
`vs_average = prediction - 79.21`, and
`vs_average_pct = vs_average / 79.21 * 100`. -/
theorem C1_derived_metrics (m : Predictor) (ex : Option Explainer)
    (pig_manure kitchen_waste chicken_litter cassava bagasse
     energy_grass banana_shafts alcohol_waste municipal_residue fish_waste
     water diesel electricity cn_ratio digester_temp
     ambient_temp humidity rainfall : ℚ)
    (res : PredictionResult) (att : Option (List (String × ℚ)))
    (h : predict_biogas (some m) ex pig_manure kitchen_waste chicken_litter
        cassava bagasse energy_grass banana_shafts alcohol_waste
        municipal_residue fish_waste water diesel electricity cn_ratio
        digester_temp ambient_temp humidity rainfall =
      PredictOutput.success res att) :
    res.daily_energy = res.prediction * 6.5 ∧
    res.annual_production = res.prediction * 365 / 1000 ∧
    res.vs_average = res.prediction - 79.21 ∧
    res.vs_average_pct = res.vs_average / 79.21 * 100 := by
  obtain ⟨q, -, hr⟩ := predict_core_success m ex _ res att h
  subst hr
  exact ⟨rfl, rfl, rfl, rfl⟩

/-- Witness for C1, at a predictor returning the negative estimate `-3`. -/
theorem C1_derived_metrics_witness :
    predict_biogas (some (fun _ => (Except.ok (-3) : Except String ℚ))) none
        0 0 0 0 0 0 0 0 0 0 0 0 0 0 0 0 0 0 =
      PredictOutput.success (make_result (-3)) none ∧
    ((make_result (-3)).daily_energy = (make_result (-3)).prediction * 6.5 ∧
     (make_result (-3)).annual_production =
       (make_result (-3)).prediction * 365 / 1000 ∧
     (make_result (-3)).vs_average = (make_result (-3)).prediction - 79.21 ∧
     (make_result (-3)).vs_average_pct =
       (make_result (-3)).vs_average / 79.21 * 100) :=
  ⟨rfl,
    C1_derived_metrics (fun _ => (Except.ok (-3) : Except String ℚ)) none
      0 0 0 0 0 0 0 0 0 0 0 0 0 0 0 0 0 0 (make_result (-3)) none rfl⟩

/-- **C3**: for every per-feature contribution list, the attribution
produced by the single predictor (a `top_shap` of the name/value pairs) has
length at most 10, is sorted by descending absolute contribution, and is
stable: at every absolute-value level the selected entries are an initial
segment of the original entries at that level, in their original order. -/
theorem C3_attribution_top10 (l : List (String × ℚ)) :
    (top_shap l).length ≤ 10 ∧
    (top_shap l).Pairwise (fun a b => |b.2| ≤ |a.2|) ∧
    ∀ c : ℚ,
      (top_shap l).filter (fun p => decide (|p.2| = c)) <+:
        l.filter (fun p => decide (|p.2| = c)) := by
  refine ⟨List.length_take_le 10 _, ?_, ?_⟩
  · have hs : (List.insertionSort shap_desc l).Pairwise shap_desc :=
      List.sorted_insertionSort shap_desc l
    exact (hs.sublist (List.take_sublist 10 _)).imp (fun h => h)
  · intro c
    have hpre := prefix_filter (fun p => decide (|p.2| = c))
      (List.take_prefix 10 (List.insertionSort shap_desc l))
    rw [filter_insertionSort_shap c l] at hpre
    exact hpre

/-- **C4**: a batch table whose column set does not superset the 18 feature
names is rejected with the missing-columns message, and the missing list is
exactly the set difference of the feature names and the table's columns. -/
theorem C4_schema_error (m : Predictor) (df : CsvTable)
    (h : missing_cols df.cols ≠ []) :
    batch_predict (some m) (some df) =
      BatchOutput.failure
        ("❌ Missing columns: " ++ toString (missing_cols df.cols)) ∧
    ∀ n, n ∈ missing_cols df.cols ↔ n ∈ feature_names ∧ ¬ n ∈ df.cols := by
  constructor
  · simp [batch_predict, h]
  · intro n
    simp [missing_cols, List.mem_filter, List.elem_iff]

/-- Witness for C4: the scenario of a batch file missing only the
`C/N Ratio` column — the missing set is exactly that one column. -/
theorem C4_schema_error_witness :
    missing_cols (feature_names.erase "C/N Ratio") = ["C/N Ratio"] ∧
    (batch_predict (some (fun _ => (Except.ok 0 : Except String ℚ)))
        (some ⟨feature_names.erase "C/N Ratio", []⟩) =
      BatchOutput.failure
        ("❌ Missing columns: " ++
          toString (missing_cols (feature_names.erase "C/N Ratio"))) ∧
     ∀ n, n ∈ missing_cols (feature_names.erase "C/N Ratio") ↔
        n ∈ feature_names ∧ ¬ n ∈ feature_names.erase "C/N Ratio") :=
  ⟨rfl,
    C4_schema_error (fun _ => (Except.ok 0 : Except String ℚ))
      ⟨feature_names.erase "C/N Ratio", []⟩ (by decide)⟩

/-- **C5**: if the predictor succeeds on a vector and the explainer raises
on it, `predict_biogas` still returns the full prediction result computed
from the point estimate, with attribution `none`; the attribution failure
never discards or fails the prediction. -/
theorem C5_attribution_failure (m : Predictor) (ex : Explainer)
    (pig_manure kitchen_waste chicken_litter cassava bagasse
     energy_grass banana_shafts alcohol_waste municipal_residue fish_waste
     water diesel electricity cn_ratio digester_temp
     ambient_temp humidity rainfall : ℚ) (q : ℚ) (e : String)
    (hm : m (input_row pig_manure kitchen_waste chicken_litter cassava
        bagasse energy_grass banana_shafts alcohol_waste municipal_residue
        fish_waste water diesel electricity cn_ratio digester_temp
        ambient_temp humidity rainfall) = Except.ok q)
    (he : ex (input_row pig_manure kitchen_waste chicken_litter cassava
        bagasse energy_grass banana_shafts alcohol_waste municipal_residue
        fish_waste water diesel electricity cn_ratio digester_temp
        ambient_temp humidity rainfall) = Except.error e) :
    predict_biogas (some m) (some ex) pig_manure kitchen_waste
        chicken_litter cassava bagasse energy_grass banana_shafts
        alcohol_waste municipal_residue fish_waste water diesel electricity
        cn_ratio digester_temp ambient_temp humidity rainfall =
      PredictOutput.success (make_result q) none := by
  simp [predict_biogas, predict_core, hm, he]

/-- Witness for C5: a predictor returning `5` and an explainer that always
raises. -/
theorem C5_attribution_failure_witness :
    predict_biogas (some (fun _ => (Except.ok 5 : Except String ℚ)))
        (some (fun _ =>
          (Except.error "shape mismatch" : Except String (List ℚ))))
        0 0 0 0 0 0 0 0 0 0 0 0 0 0 0 0 0 0 =
      PredictOutput.success (make_result 5) none :=
  C5_attribution_failure (fun _ => (Except.ok 5 : Except String ℚ))
    (fun _ => (Except.error "shape mismatch" : Except String (List ℚ)))
    0 0 0 0 0 0 0 0 0 0 0 0 0 0 0 0 0 0 5 "shape mismatch" rfl rfl

/-- **C6**: when the model failed to load, both entry points short-circuit
with a user-facing failure message, for every explainer, file and input —
the predictor is never consulted and no exception escapes (the outcome is a
plain `failure` value). -/
theorem C6_registry_unavailable (ex : Option Explainer)
    (file : Option CsvTable)
    (pig_manure kitchen_waste chicken_litter cassava bagasse
     energy_grass banana_shafts alcohol_waste municipal_residue fish_waste
     water diesel electricity cn_ratio digester_temp
     ambient_temp humidity rainfall : ℚ) :
    predict_biogas none ex pig_manure kitchen_waste chicken_litter cassava
        bagasse energy_grass banana_shafts alcohol_waste municipal_residue
        fish_waste water diesel electricity cn_ratio digester_temp
        ambient_temp humidity rainfall =
      PredictOutput.failure "❌ Model not loaded. Please check setup." ∧
    batch_predict none file = BatchOutput.failure "❌ Model not loaded" :=
  ⟨rfl, rfl⟩

/-- When every feature name is among the table's columns, the
missing-column set is empty. -/
theorem missing_cols_nil (cols : List String)
    (h : ∀ n ∈ feature_names, n ∈ cols) : missing_cols cols = [] :=
  List.filter_eq_nil_iff.mpr (fun a ha => by simp [h a ha])

/-- The prediction loop, when every row predicts successfully, returns one
prediction per row, in row order. -/
theorem run_predictions_spec (m : Predictor) :
    ∀ rows : List (String → ℚ),
      (∀ row ∈ rows, ∃ q, m (feature_names.map row) = Except.ok q) →
      ∃ ps, run_predictions m rows = Except.ok ps ∧
        ps.length = rows.length ∧
        ∀ i (hi : i < ps.length) (hj : i < rows.length),
          m (feature_names.map (rows.get ⟨i, hj⟩)) = Except.ok (ps.get ⟨i, hi⟩)
  | [], _ => ⟨[], rfl, rfl, fun i hi _ => absurd hi (Nat.not_lt_zero i)⟩
  | row :: rest, h => by
    obtain ⟨q, hq⟩ := h row (List.mem_cons_self row rest)
    obtain ⟨ps, hps, hlen, hget⟩ :=
      run_predictions_spec m rest (fun r hr => h r (List.mem_cons_of_mem _ hr))
    refine ⟨q :: ps, ?_, by simp [hlen], ?_⟩
    · simp [run_predictions, hq, hps]
    · intro i hi hj
      cases i with
      | zero => simpa using hq
      | succ k =>
        exact hget k (Nat.lt_of_succ_lt_succ hi) (Nat.lt_of_succ_lt_succ hj)

/-- Counterexample to C2 as stated: the empty table carries every feature
column (so its column set supersets the feature names and it passes schema
validation), yet the call returns the caught zero-size reduction error —
no prediction column is produced at all. -/
theorem C2_counterexample :
    batch_predict (some (fun _ => (Except.ok 1 : Except String ℚ)))
        (some ⟨feature_names, []⟩) =
      BatchOutput.failure ("❌ Error processing file: " ++
        "zero-size array to reduction operation minimum which has no identity") :=
  rfl

/-- **C2** (amended): for every non-empty table whose column set supersets
the 18 feature names, which does not already carry a `Predicted_Biogas_m3`
column, and on whose rows the predictor succeeds, the batch result holds
exactly one prediction per input row, in input row order (no row skipped or
merged), appended to the table as one new numeric column. -/
theorem C2_batch_per_row (m : Predictor) (df : CsvTable)
    (hcols : ∀ n ∈ feature_names, n ∈ df.cols)
    (hnew : ¬ "Predicted_Biogas_m3" ∈ df.cols)
    (hrows : df.rows ≠ [])
    (hok : ∀ row ∈ df.rows, ∃ q, m (feature_names.map row) = Except.ok q) :
    ∃ ps summary,
      batch_predict (some m) (some df) =
        BatchOutput.success (df.cols ++ ["Predicted_Biogas_m3"]) df.rows ps
          summary "biogas_predictions.csv" ∧
      ps.length = df.rows.length ∧
      ∀ i (hi : i < ps.length) (hj : i < df.rows.length),
        m (feature_names.map (df.rows.get ⟨i, hj⟩)) =
          Except.ok (ps.get ⟨i, hi⟩) := by
  obtain ⟨ps, hps, hlen, hget⟩ := run_predictions_spec m df.rows hok
  have hmc := missing_cols_nil df.cols hcols
  have hpsne : ps ≠ [] := by
    intro h0
    apply hrows
    apply List.length_eq_zero.mp
    rw [← hlen, h0]
    rfl
  obtain ⟨x, xs, rfl⟩ := List.exists_cons_of_ne_nil hpsne
  refine ⟨x :: xs,
    { count := df.rows.length
      mean := np_mean (x :: xs)
      std_sq := np_std_sq (x :: xs)
      min := xs.foldl min x
      max := xs.foldl max x
      range := xs.foldl max x - xs.foldl min x }, ?_, hlen, hget⟩
  simp [batch_predict, hmc, hps, hnew, np_min, np_max]

/-- Witness for C2 (amended) at a one-row table over exactly the feature
columns and a constant predictor. -/
theorem C2_batch_per_row_witness :
    ∃ ps summary,
      batch_predict (some (fun _ => (Except.ok 7 : Except String ℚ)))
          (some ⟨feature_names, [fun _ => 0]⟩) =
        BatchOutput.success (feature_names ++ ["Predicted_Biogas_m3"])
          [fun _ => 0] ps summary "biogas_predictions.csv" ∧
      ps.length = [fun _ : String => (0 : ℚ)].length ∧
      ∀ i (hi : i < ps.length)
        (hj : i < [fun _ : String => (0 : ℚ)].length),
        (fun _ => (Except.ok 7 : Except String ℚ))
            (feature_names.map ([fun _ : String => (0 : ℚ)].get ⟨i, hj⟩)) =
          Except.ok (ps.get ⟨i, hi⟩) :=
  C2_batch_per_row (fun _ => (Except.ok 7 : Except String ℚ))
    ⟨feature_names, [fun _ => 0]⟩ (by decide) (by decide)
    (by simp) (fun _ _ => ⟨7, rfl⟩)

/-- Counterexample to C7 as stated: on the empty table with all 18 feature
columns the code returns the caught numpy reduction error message, not a
result with an empty prediction column. -/
theorem C7_counterexample :
    batch_predict (some (fun _ => (Except.ok 0 : Except String ℚ)))
        (some ⟨feature_names, []⟩) =
      BatchOutput.failure ("❌ Error processing file: " ++
        "zero-size array to reduction operation minimum which has no identity") :=
  rfl

/-- **C7** (amended): an empty batch table whose columns superset the
feature names does not propagate any exception, but it also does not return
an empty prediction column: `np.min` raises on the zero-size prediction
array while the summary is formatted, the enclosing handler catches it, and
the call returns the error message with no output file. -/
theorem C7_empty_table (m : Predictor) (df : CsvTable)
    (hcols : ∀ n ∈ feature_names, n ∈ df.cols) (hrows : df.rows = []) :
    batch_predict (some m) (some df) =
      BatchOutput.failure ("❌ Error processing file: " ++
        "zero-size array to reduction operation minimum which has no identity") := by
  have hmc := missing_cols_nil df.cols hcols
  simp [batch_predict, hmc, hrows, run_predictions, np_min]

/-- Witness for C7 (amended) at the concrete empty template table. -/
theorem C7_empty_table_witness :
    batch_predict (some (fun _ => (Except.ok 2 : Except String ℚ)))
        (some ⟨feature_names, []⟩) =
      BatchOutput.failure ("❌ Error processing file: " ++
        "zero-size array to reduction operation minimum which has no identity") :=
  C7_empty_table (fun _ => (Except.ok 2 : Except String ℚ))
    ⟨feature_names, []⟩ (by decide) rfl

/-- A successful batch pins the summary statistics to the numpy aggregates
of a non-empty prediction list. -/
theorem batch_success_inv (m : Predictor) (df : CsvTable)
    (cols : List String) (rows : List (String → ℚ)) (ps : List ℚ)
    (s : BatchSummary) (f : String)
    (h : batch_predict (some m) (some df) =
      BatchOutput.success cols rows ps s f) :
    ∃ x xs, ps = x :: xs ∧
      s.mean = np_mean ps ∧ s.min = xs.foldl min x ∧
      s.max = xs.foldl max x ∧ s.range = s.max - s.min := by
  simp only [batch_predict] at h
  split at h
  · exact absurd h (by simp)
  · split at h
    · exact absurd h (by simp)
    · split at h
      · rename_i predictions hpred ex1 ex2 mn mx hmn hmx
        cases h
        cases ps with
        | nil => exact absurd hmn (by simp [np_min])
        | cons x xs =>
          simp only [np_min] at hmn
          simp only [np_max] at hmx
          cases hmn
          cases hmx
          exact ⟨x, xs, rfl, rfl, rfl, rfl, rfl⟩
      · exact absurd h (by simp)
      · exact absurd h (by simp)

/-- `foldl min` is below its initial value. -/
theorem foldl_min_le_init (xs : List ℚ) : ∀ x : ℚ, xs.foldl min x ≤ x := by
  induction xs with
  | nil => intro x; exact le_refl x
  | cons a t ih => intro x; exact le_trans (ih (min x a)) (min_le_left x a)

/-- `foldl min` is below every member of the list. -/
theorem foldl_min_le_mem (xs : List ℚ) :
    ∀ (x y : ℚ), y ∈ xs → xs.foldl min x ≤ y := by
  induction xs with
  | nil => intro x y hy; cases hy
  | cons a t ih =>
    intro x y hy
    rcases List.mem_cons.mp hy with rfl | hy'
    · exact le_trans (foldl_min_le_init t (min x y)) (min_le_right x y)
    · exact ih (min x a) y hy'

/-- `foldl max` is above its initial value. -/
theorem le_foldl_max_init (xs : List ℚ) : ∀ x : ℚ, x ≤ xs.foldl max x := by
  induction xs with
  | nil => intro x; exact le_refl x
  | cons a t ih => intro x; exact le_trans (le_max_left x a) (ih (max x a))

/-- `foldl max` is above every member of the list. -/
theorem mem_le_foldl_max (xs : List ℚ) :
    ∀ (x y : ℚ), y ∈ xs → y ≤ xs.foldl max x := by
  induction xs with
  | nil => intro x y hy; cases hy
  | cons a t ih =>
    intro x y hy
    rcases List.mem_cons.mp hy with rfl | hy'
    · exact le_trans (le_max_right x y) (le_foldl_max_init t (max x y))
    · exact ih (max x a) y hy'

/-- The numpy minimum of a non-empty list is at most its mean. -/
theorem np_min_le_np_mean (x : ℚ) (xs : List ℚ) :
    xs.foldl min x ≤ np_mean (x :: xs) := by
  have hb : ∀ y ∈ x :: xs, xs.foldl min x ≤ y := by
    intro y hy
    rcases List.mem_cons.mp hy with rfl | hy'
    · exact foldl_min_le_init xs y
    · exact foldl_min_le_mem xs x y hy'
  have hsum := List.card_nsmul_le_sum (x :: xs) (xs.foldl min x) hb
  rw [np_mean, le_div_iff₀ (by exact_mod_cast xs.length.succ_pos)]
  calc xs.foldl min x * ((x :: xs).length : ℚ)
      = ((x :: xs).length : ℚ) * xs.foldl min x := mul_comm _ _
    _ = (x :: xs).length • xs.foldl min x :=
        (nsmul_eq_mul (x :: xs).length (xs.foldl min x)).symm
    _ ≤ (x :: xs).sum := hsum

/-- The mean of a non-empty list is at most its numpy maximum. -/
theorem np_mean_le_np_max (x : ℚ) (xs : List ℚ) :
    np_mean (x :: xs) ≤ xs.foldl max x := by
  have hb : ∀ y ∈ x :: xs, y ≤ xs.foldl max x := by
    intro y hy
    rcases List.mem_cons.mp hy with rfl | hy'
    · exact le_foldl_max_init xs y
    · exact mem_le_foldl_max xs x y hy'
  have hsum := List.sum_le_card_nsmul (x :: xs) (xs.foldl max x) hb
  rw [np_mean, div_le_iff₀ (by exact_mod_cast xs.length.succ_pos)]
  calc (x :: xs).sum
      ≤ (x :: xs).length • xs.foldl max x := hsum
    _ = ((x :: xs).length : ℚ) * xs.foldl max x :=
        nsmul_eq_mul (x :: xs).length (xs.foldl max x)
    _ = xs.foldl max x * ((x :: xs).length : ℚ) := mul_comm _ _

/-- **C8**: every successful batch's aggregate statistics satisfy
`min ≤ mean ≤ max` and `range = max - min`. -/
theorem C8_aggregate_stats (m : Predictor) (df : CsvTable)
    (cols : List String) (rows : List (String → ℚ)) (ps : List ℚ)
    (s : BatchSummary) (f : String)
    (h : batch_predict (some m) (some df) =
      BatchOutput.success cols rows ps s f) :
    s.min ≤ s.mean ∧ s.mean ≤ s.max ∧ s.range = s.max - s.min := by
  obtain ⟨x, xs, rfl, hmean, hmin, hmax, hrange⟩ :=
    batch_success_inv m df cols rows ps s f h
  refine ⟨?_, ?_, hrange⟩
  · rw [hmin, hmean]; exact np_min_le_np_mean x xs
  · rw [hmax, hmean]; exact np_mean_le_np_max x xs

/-- Witness for C8 at a concrete one-row batch. -/
theorem C8_aggregate_stats_witness :
    batch_predict (some (fun _ => (Except.ok 7 : Except String ℚ)))
        (some ⟨feature_names, [fun _ => 1]⟩) =
      BatchOutput.success (feature_names ++ ["Predicted_Biogas_m3"])
        [fun _ => 1] [7]
        { count := 1, mean := np_mean [7], std_sq := np_std_sq [7],
          min := 7, max := 7, range := 7 - 7 } "biogas_predictions.csv" ∧
    ((7 : ℚ) ≤ np_mean [7] ∧ np_mean [7] ≤ 7 ∧ (7 : ℚ) - 7 = 7 - 7) := by
  have h : batch_predict (some (fun _ => (Except.ok 7 : Except String ℚ)))
      (some ⟨feature_names, [fun _ => 1]⟩) =
      BatchOutput.success (feature_names ++ ["Predicted_Biogas_m3"])
        [fun _ => 1] [7]
        { count := 1, mean := np_mean [7], std_sq := np_std_sq [7],
          min := 7, max := 7, range := 7 - 7 } "biogas_predictions.csv" := rfl
  exact ⟨h, C8_aggregate_stats _ _ _ _ _ _ _ h⟩

/-- **C9**: `predict_biogas` is deterministic — two runs on identical
inputs with the same loaded predictor and explainer yield identical
outputs. -/
theorem C9_deterministic (model : Option Predictor)
    (explainer : Option Explainer)
    (p1 p2 p3 p4 p5 p6 p7 p8 p9 p10 p11 p12 p13 p14 p15 p16 p17 p18 : ℚ)
    (q1 q2 q3 q4 q5 q6 q7 q8 q9 q10 q11 q12 q13 q14 q15 q16 q17 q18 : ℚ)
    (h1 : p1 = q1) (h2 : p2 = q2) (h3 : p3 = q3) (h4 : p4 = q4)
    (h5 : p5 = q5) (h6 : p6 = q6) (h7 : p7 = q7) (h8 : p8 = q8)
    (h9 : p9 = q9) (h10 : p10 = q10) (h11 : p11 = q11) (h12 : p12 = q12)
    (h13 : p13 = q13) (h14 : p14 = q14) (h15 : p15 = q15) (h16 : p16 = q16)
    (h17 : p17 = q17) (h18 : p18 = q18) :
    predict_biogas model explainer
        p1 p2 p3 p4 p5 p6 p7 p8 p9 p10 p11 p12 p13 p14 p15 p16 p17 p18 =
      predict_biogas model explainer
        q1 q2 q3 q4 q5 q6 q7 q8 q9 q10 q11 q12 q13 q14 q15 q16 q17 q18 := by
  subst_vars
  rfl

/-- Witness for C9 at concrete inputs. -/
theorem C9_deterministic_witness :
    predict_biogas none none 1 2 3 4 5 6 7 8 9 10 11 12 13 14 15 16 17 18 =
      predict_biogas none none 1 2 3 4 5 6 7 8 9 10 11 12 13 14 15 16 17 18 :=
  C9_deterministic none none 1 2 3 4 5 6 7 8 9 10 11 12 13 14 15 16 17 18
    1 2 3 4 5 6 7 8 9 10 11 12 13 14 15 16 17 18
    rfl rfl rfl rfl rfl rfl rfl rfl rfl rfl rfl rfl rfl rfl rfl rfl rfl rfl

/-- **C10**: with no uploaded file, `batch_predict` returns a user-facing
error message and no output file, for every loaded predictor — the
predictor is never applied and no exception escapes. -/
theorem C10_no_file (m : Predictor) :
    batch_predict (some m) none =
      BatchOutput.failure "❌ Please upload a CSV file" :=
  rfl

end BiogasApp
